import Mathlib

/-!
Formal model of the inventory management service (an Express application
over a SQLite store; the handlers live in the single server source file).

The relational store is embedded shallowly: a table is a `List` of row
structures, an SQL `UPDATE` is a map over the rows paired with the
rows-affected count (`this.changes` in the handlers), a `DELETE` is a
filter, and the transfer endpoint's transaction is a pure function that
returns the outcome together with the committed (or rolled-back) table.
Store-level I/O failures are outside the model: every statement the
store accepts executes, and every outcome is decided by rows-affected
counts exactly as the handler code decides it.
-/

namespace Inventory

/-- A row of the Categories table: `category_id INTEGER PRIMARY KEY`,
`category_name TEXT NOT NULL UNIQUE`. -/
structure Category where
  category_id : Nat
  category_name : String
deriving Repr, DecidableEq

/-- A row of the Products table.  `price REAL` is modelled as `Rat`,
`stock_quantity INTEGER` as `Int` (SQLite integers are signed and the
schema declares no CHECK constraint), `category_id` is nullable. -/
structure Product where
  product_id : Nat
  product_name : String
  price : Rat
  stock_quantity : Int
  category_id : Option Nat
deriving Repr, DecidableEq

/-- The PRIMARY KEY constraint on `Products.product_id`: row ids are
pairwise distinct. -/
abbrev WellFormed (db : List Product) : Prop :=
  (db.map Product.product_id).Nodup

/-- The row the store resolves for `WHERE product_id = ?`. -/
def getProduct (db : List Product) (i : Nat) : Option Product :=
  db.find? fun p => p.product_id == i

/-- The stock the store holds for product `i`, when that row exists. -/
def getStock (db : List Product) (i : Nat) : Option Int :=
  (getProduct db i).map Product.stock_quantity

/-- An SQL `UPDATE` statement over the Products table: every row
satisfying `pred` is replaced by `upd` of it; the second component is
the rows-affected count reported back as `this.changes`. -/
def sqlUpdate (pred : Product → Bool) (upd : Product → Product) (db : List Product) :
    List Product × Nat :=
  (db.map fun p => if pred p then upd p else p, (db.filter pred).length)

/-- WHERE clause of the transfer's debit statement:
`product_id = ? AND stock_quantity >= ?`. -/
def debitPred (fromId : Nat) (quantity : Int) (p : Product) : Bool :=
  p.product_id == fromId && decide (quantity ≤ p.stock_quantity)

/-- SET clause of the debit statement: `stock_quantity = stock_quantity - ?`. -/
def debitRow (quantity : Int) (p : Product) : Product :=
  { p with stock_quantity := p.stock_quantity - quantity }

/-- WHERE clause `product_id = ?`, shared by the transfer's credit
statement and by product update/delete. -/
def idPred (i : Nat) (p : Product) : Bool :=
  p.product_id == i

/-- SET clause of the credit statement: `stock_quantity = stock_quantity + ?`. -/
def creditRow (quantity : Int) (p : Product) : Product :=
  { p with stock_quantity := p.stock_quantity + quantity }

/-- Terminal outcomes of `POST /api/inventory/adjust` (begin/commit
failures of the store itself are outside the model). -/
inductive TransferOutcome where
  | success
  | insufficientStock
  | destNotFound
deriving Repr, DecidableEq

/-- The HTTP status the adjust handler sends for each outcome. -/
def TransferOutcome.statusCode : TransferOutcome → Nat
  | .success => 200
  | .insufficientStock => 400
  | .destNotFound => 400

/-- The transfer transaction of `POST /api/inventory/adjust`: the debit
runs guarded by its own WHERE clause (`product_id = ? AND
stock_quantity >= ?`); zero rows affected rolls the transaction back
with the insufficient-stock fault; the credit runs guarded by
`product_id = ?`; zero rows affected rolls back with the
destination-not-found fault; otherwise the transaction commits. -/
def transfer (db : List Product) (fromId toId : Nat) (quantity : Int) :
    TransferOutcome × List Product :=
  if (sqlUpdate (debitPred fromId quantity) (debitRow quantity) db).2 = 0 then
    (.insufficientStock, db)
  else if (sqlUpdate (idPred toId) (creditRow quantity)
      (sqlUpdate (debitPred fromId quantity) (debitRow quantity) db).1).2 = 0 then
    (.destNotFound, db)
  else
    (.success, (sqlUpdate (idPred toId) (creditRow quantity)
      (sqlUpdate (debitPred fromId quantity) (debitRow quantity) db).1).1)

/-- Outcome of the single-row repository writes (`PUT` / `DELETE` on
`/api/products/:id`). -/
inductive RepoResult where
  | ok (changes : Nat)
  | notFound
deriving Repr, DecidableEq

/-- The HTTP status the product update/delete handlers send. -/
def RepoResult.statusCode : RepoResult → Nat
  | .ok _ => 200
  | .notFound => 404

/-- SET clause of `PUT /api/products/:id`: full replace of the mutable
fields. -/
def updateRow (name : String) (price : Rat) (quantity : Int) (cat : Option Nat)
    (p : Product) : Product :=
  { p with product_name := name, price := price, stock_quantity := quantity,
           category_id := cat }

/-- `PUT /api/products/:id`: one UPDATE statement; `this.changes = 0`
answers 404, otherwise 200 with the change count. -/
def updateProduct (db : List Product) (id : Nat) (name : String) (price : Rat)
    (quantity : Int) (cat : Option Nat) : RepoResult × List Product :=
  if (sqlUpdate (idPred id) (updateRow name price quantity cat) db).2 = 0 then
    (.notFound, db)
  else
    (.ok (sqlUpdate (idPred id) (updateRow name price quantity cat) db).2,
     (sqlUpdate (idPred id) (updateRow name price quantity cat) db).1)

/-- `DELETE /api/products/:id`: one DELETE statement; `this.changes = 0`
answers 404, otherwise 200 with the change count. -/
def deleteProduct (db : List Product) (id : Nat) : RepoResult × List Product :=
  if (db.filter (idPred id)).length = 0 then
    (.notFound, db)
  else
    (.ok (db.filter (idPred id)).length, db.filter fun p => !(idPred id p))

/-- `POST /api/products`: INSERT with the caller's fields; the generated
`product_id` (AUTOINCREMENT) is the store's fresh id, passed in here. -/
def createProduct (db : List Product) (freshId : Nat) (name : String) (price : Rat)
    (quantity : Int) (cat : Option Nat) : List Product :=
  db ++ [⟨freshId, name, price, quantity, cat⟩]

/-- Outcome of `POST /api/categories`. -/
inductive CreateCategoryResult where
  | badRequest
  | conflict
  | created (id : Nat)
deriving Repr, DecidableEq

/-- The HTTP status the category creation handler sends. -/
def CreateCategoryResult.statusCode : CreateCategoryResult → Nat
  | .badRequest => 400
  | .conflict => 409
  | .created _ => 201

/-- `POST /api/categories`: a JS-falsy name (absent or empty string) is
rejected with 400 before touching the store; a name already present
violates the UNIQUE constraint on `category_name`, which the handler
maps to 409; otherwise the row is inserted under the next AUTOINCREMENT
id and answered 201. -/
def createCategory (rows : List Category) (nextId : Nat) (name : Option String) :
    CreateCategoryResult × List Category :=
  match name with
  | none => (.badRequest, rows)
  | some n =>
    if n.isEmpty then (.badRequest, rows)
    else if rows.any fun c => c.category_name == n then (.conflict, rows)
    else (.created nextId, rows ++ [⟨nextId, n⟩])

/-- JS truthiness of an optional query-string parameter: present and
not the empty string. -/
def jsTruthy : Option String → Bool
  | none => false
  | some s => !s.isEmpty

/-- Value of a decimal digit string, most significant digit first. -/
def digitsVal (cs : List Char) : Nat :=
  cs.foldl (fun n c => 10 * n + (c.toNat - 48)) 0

/-- Models the JS `parseFloat` builtin on the grammar the service's
query parameters use: optional leading whitespace, optional sign,
decimal digits with an optional fraction.  `none` stands for NaN (no
parseable numeric prefix). -/
def parseFloatJs (s : String) : Option Rat :=
  let cs := s.toList.dropWhile fun c => c == ' ' || c == '\t' || c == '\n' || c == '\r'
  let signed : Rat × List Char :=
    match cs with
    | '-' :: rest => (-1, rest)
    | '+' :: rest => (1, rest)
    | _ => (1, cs)
  let intDigits := signed.2.takeWhile Char.isDigit
  let afterInt := signed.2.dropWhile Char.isDigit
  let fracDigits :=
    match afterInt with
    | '.' :: rest => rest.takeWhile Char.isDigit
    | _ => []
  if intDigits.isEmpty && fracDigits.isEmpty then none
  else some (signed.1 *
    ((digitsVal intDigits : Rat) + (digitsVal fracDigits : Rat) / (10 : Rat) ^ fracDigits.length))

/-- Models the JS `parseInt` builtin with no radix argument on decimal
input: optional leading whitespace, optional sign, decimal digits.
`none` stands for NaN. -/
def parseIntJs (s : String) : Option Int :=
  let cs := s.toList.dropWhile fun c => c == ' ' || c == '\t' || c == '\n' || c == '\r'
  let signed : Int × List Char :=
    match cs with
    | '-' :: rest => (-1, rest)
    | '+' :: rest => (1, rest)
    | _ => (1, cs)
  let ds := signed.2.takeWhile Char.isDigit
  if ds.isEmpty then none else some (signed.1 * digitsVal ds)

/-- One pushed WHERE clause of `GET /api/products` together with its
bound parameter; a `none` parameter is NaN (unparseable input), which
the driver binds as NULL. -/
inductive BoundClause where
  | priceGe (x : Option Rat)
  | priceLe (x : Option Rat)
  | qtyGe (x : Option Int)
  | qtyLe (x : Option Int)
deriving Repr, DecidableEq

/-- The four optional query-string bounds of `GET /api/products`. -/
structure ProductQuery where
  minPrice : Option String
  maxPrice : Option String
  minQty : Option String
  maxQty : Option String
deriving Repr, DecidableEq

/-- A request with no query parameters. -/
def noFilter : ProductQuery := ⟨none, none, none, none⟩

/-- The `whereClauses` / `params` construction of the products handler:
a bound contributes its clause exactly when its raw value is JS-truthy
(present and non-empty); the bound parameter is the `parseFloat` or
`parseInt` of the raw string, NaN included. -/
def buildClauses (q : ProductQuery) : List BoundClause :=
  (if jsTruthy q.minPrice then [.priceGe (parseFloatJs (q.minPrice.getD ""))] else []) ++
  (if jsTruthy q.maxPrice then [.priceLe (parseFloatJs (q.maxPrice.getD ""))] else []) ++
  (if jsTruthy q.minQty then [.qtyGe (parseIntJs (q.minQty.getD ""))] else []) ++
  (if jsTruthy q.maxQty then [.qtyLe (parseIntJs (q.maxQty.getD ""))] else [])

/-- An output row of the products listing: the joined projection
`p.product_id, p.product_name, p.price, p.stock_quantity,
c.category_name`. -/
structure ProductRow where
  product_id : Nat
  product_name : String
  price : Rat
  stock_quantity : Int
  category_name : String
deriving Repr, DecidableEq

/-- SQL evaluation of one bound clause on a joined row.  A NaN
parameter reaches the store as NULL and a comparison with NULL selects
no row. -/
def clauseHolds (c : BoundClause) (r : ProductRow) : Bool :=
  match c with
  | .priceGe none => false
  | .priceGe (some x) => decide (x ≤ r.price)
  | .priceLe none => false
  | .priceLe (some x) => decide (r.price ≤ x)
  | .qtyGe none => false
  | .qtyGe (some x) => decide (x ≤ r.stock_quantity)
  | .qtyLe none => false
  | .qtyLe (some x) => decide (r.stock_quantity ≤ x)

/-- The inner `JOIN Categories c ON p.category_id = c.category_id`: a
product row pairs with every category row whose id equals its non-null
`category_id`; a NULL `category_id` matches no category. -/
def joinRows (ps : List Product) (cs : List Category) : List ProductRow :=
  ps.flatMap fun p =>
    (cs.filter fun c => p.category_id == some c.category_id).map fun c =>
      ⟨p.product_id, p.product_name, p.price, p.stock_quantity, c.category_name⟩

/-- `GET /api/categories`: `SELECT * FROM Categories ORDER BY
category_name`. -/
def listCategories (cs : List Category) : List Category :=
  cs.mergeSort fun a b => decide (a.category_name ≤ b.category_name)

/-- `GET /api/products`: join, keep the rows satisfying every supplied
bound, `ORDER BY p.product_name`. -/
def listProducts (ps : List Product) (cs : List Category) (q : ProductQuery) :
    List ProductRow :=
  ((joinRows ps cs).filter fun r => (buildClauses q).all fun c => clauseHolds c r).mergeSort
    fun a b => decide (a.product_name ≤ b.product_name)

/-- Concrete data of the spec's test scenario: two products with stock
10 and 5. -/
def scenarioDb : List Product :=
  [⟨1, "Widget", 1, 10, none⟩, ⟨2, "Gadget", 1, 5, none⟩]

/-- The scenario state after `transfer(1, 2, 10)`: stock 0 and 15. -/
def drainedDb : List Product :=
  [⟨1, "Widget", 1, 0, none⟩, ⟨2, "Gadget", 1, 15, none⟩]

/-- A one-product table, for the missing-destination and self-transfer
scenarios. -/
def soloDb : List Product :=
  [⟨1, "Widget", 1, 10, none⟩]

/-- A table holding one uncategorized and one categorized product. -/
def mixedPs : List Product :=
  [⟨1, "Axe", 1, 5, none⟩, ⟨2, "Book", 1, 5, some 1⟩]

/-- A one-category table matching `mixedPs`. -/
def oneCat : List Category :=
  [⟨1, "Tools"⟩]

theorem sqlUpdate_fst (pred : Product → Bool) (upd : Product → Product)
    (db : List Product) :
    (sqlUpdate pred upd db).1 = db.map fun p => if pred p then upd p else p := rfl

theorem sqlUpdate_snd (pred : Product → Bool) (upd : Product → Product)
    (db : List Product) :
    (sqlUpdate pred upd db).2 = (db.filter pred).length := rfl

theorem filter_length_ne_zero {α : Type} (p : α → Bool) (l : List α) (a : α)
    (ha : a ∈ l) (hpa : p a = true) : (l.filter p).length ≠ 0 := by
  intro h
  rw [List.length_eq_zero, List.filter_eq_nil_iff] at h
  exact h a ha hpa

theorem filter_length_zero {α : Type} (p : α → Bool) (l : List α)
    (h : ∀ a ∈ l, ¬ p a = true) : (l.filter p).length = 0 := by
  rw [List.length_eq_zero, List.filter_eq_nil_iff]
  exact h

theorem getStock_some_elim (db : List Product) (i : Nat) (s : Int)
    (hs : getStock db i = some s) :
    ∃ p, getProduct db i = some p ∧ p ∈ db ∧ p.product_id = i ∧
      p.stock_quantity = s := by
  rw [getStock, Option.map_eq_some'] at hs
  obtain ⟨p, hfind, hstock⟩ := hs
  refine ⟨p, hfind, List.mem_of_find?_eq_some hfind, ?_, hstock⟩
  simpa using List.find?_some hfind

/-- A statement whose SET clause leaves `product_id` alone commutes with
row lookup by id. -/
theorem getProduct_sqlUpdate (pred : Product → Bool) (upd : Product → Product)
    (hid : ∀ p, (upd p).product_id = p.product_id) (db : List Product) (i : Nat) :
    getProduct (sqlUpdate pred upd db).1 i =
      (getProduct db i).map fun p => if pred p then upd p else p := by
  simp only [getProduct, sqlUpdate_fst]
  rw [List.find?_map]
  have hfun : ((fun p : Product => p.product_id == i) ∘
      fun p => if pred p = true then upd p else p) = fun p : Product => p.product_id == i := by
    funext p
    by_cases hp : pred p = true <;> simp [Function.comp, hp, hid]
  rw [hfun]

theorem transfer_eq_insufficient (db : List Product) (fromId toId : Nat)
    (quantity : Int) (h : (db.filter (debitPred fromId quantity)).length = 0) :
    transfer db fromId toId quantity = (.insufficientStock, db) := by
  simp only [transfer, sqlUpdate_snd]
  rw [if_pos h]

theorem transfer_eq_destNotFound (db : List Product) (fromId toId : Nat)
    (quantity : Int) (h1 : (db.filter (debitPred fromId quantity)).length ≠ 0)
    (h2 : (((sqlUpdate (debitPred fromId quantity) (debitRow quantity) db).1).filter
      (idPred toId)).length = 0) :
    transfer db fromId toId quantity = (.destNotFound, db) := by
  simp only [transfer, sqlUpdate_snd]
  rw [if_neg h1, if_pos h2]

theorem transfer_eq_success (db : List Product) (fromId toId : Nat) (quantity : Int)
    (h1 : (db.filter (debitPred fromId quantity)).length ≠ 0)
    (h2 : (((sqlUpdate (debitPred fromId quantity) (debitRow quantity) db).1).filter
      (idPred toId)).length ≠ 0) :
    transfer db fromId toId quantity =
      (.success, (sqlUpdate (idPred toId) (creditRow quantity)
        (sqlUpdate (debitPred fromId quantity) (debitRow quantity) db).1).1) := by
  simp only [transfer, sqlUpdate_snd]
  rw [if_neg h1, if_neg h2]

/-- When the source row exists with sufficient stock, the guarded debit
statement affects a row. -/
theorem debit_filter_ne_zero (db : List Product) (fromId : Nat) (quantity s : Int)
    (hs : getStock db fromId = some s) (hq : quantity ≤ s) :
    (db.filter (debitPred fromId quantity)).length ≠ 0 := by
  obtain ⟨p, hfind, hmem, hpid, hstock⟩ := getStock_some_elim db fromId s hs
  exact filter_length_ne_zero _ _ p hmem (by simp [debitPred, hpid, hstock, hq])

/-- Crediting back what the debit took restores the row. -/
theorem creditRow_debitRow (quantity : Int) (p : Product) :
    creditRow quantity (debitRow quantity p) = p := by
  cases p
  simp [creditRow, debitRow]

/-- C1: a transfer between two distinct products where the source holds
stock at least the quantity and the destination exists succeeds (HTTP
200), debits the source by the quantity, credits the destination by the
quantity, and conserves the sum of the two stock quantities. -/
theorem transfer_success_postcondition (db : List Product) (fromId toId : Nat)
    (quantity s t : Int) (hne : fromId ≠ toId)
    (hs : getStock db fromId = some s) (hq : quantity ≤ s)
    (ht : getStock db toId = some t) :
    (transfer db fromId toId quantity).1 = .success ∧
    TransferOutcome.statusCode (transfer db fromId toId quantity).1 = 200 ∧
    getStock (transfer db fromId toId quantity).2 fromId = some (s - quantity) ∧
    getStock (transfer db fromId toId quantity).2 toId = some (t + quantity) ∧
    s - quantity + (t + quantity) = s + t := by
  obtain ⟨ps, hfindS, hmemS, hpidS, hstockS⟩ := getStock_some_elim db fromId s hs
  obtain ⟨pt, hfindT, hmemT, hpidT, hstockT⟩ := getStock_some_elim db toId t ht
  have h1 := debit_filter_ne_zero db fromId quantity s hs hq
  have hdb1S : getProduct (sqlUpdate (debitPred fromId quantity) (debitRow quantity) db).1
      fromId = some (debitRow quantity ps) := by
    rw [getProduct_sqlUpdate (debitPred fromId quantity) (debitRow quantity)
        (fun p => rfl) db fromId, hfindS]
    simp [debitPred, hpidS, hstockS, hq]
  have hTbeq : (pt.product_id == fromId) = false := by
    rw [hpidT]
    exact beq_eq_false_iff_ne.mpr (Ne.symm hne)
  have hdT : debitPred fromId quantity pt = false := by
    simp [debitPred, hTbeq]
  have hdb1T : getProduct (sqlUpdate (debitPred fromId quantity) (debitRow quantity) db).1
      toId = some pt := by
    rw [getProduct_sqlUpdate (debitPred fromId quantity) (debitRow quantity)
        (fun p => rfl) db toId, hfindT]
    simp [hdT]
  have h2 : (((sqlUpdate (debitPred fromId quantity) (debitRow quantity) db).1).filter
      (idPred toId)).length ≠ 0 :=
    filter_length_ne_zero _ _ pt (List.mem_of_find?_eq_some hdb1T)
      (by simp [idPred, hpidT])
  rw [transfer_eq_success db fromId toId quantity h1 h2]
  have hSbeq : ((debitRow quantity ps).product_id == toId) = false := by
    simp only [debitRow]
    rw [hpidS]
    exact beq_eq_false_iff_ne.mpr hne
  have hcS : idPred toId (debitRow quantity ps) = false := by
    simp [idPred, hSbeq]
  have hcT : idPred toId pt = true := by
    simp [idPred, hpidT]
  have hfinS : getStock (sqlUpdate (idPred toId) (creditRow quantity)
      (sqlUpdate (debitPred fromId quantity) (debitRow quantity) db).1).1 fromId
      = some (s - quantity) := by
    rw [getStock, getProduct_sqlUpdate (idPred toId) (creditRow quantity)
        (fun p => rfl) _ fromId, hdb1S]
    simp only [Option.map_some', hcS]
    simp [debitRow, hstockS]
  have hfinT : getStock (sqlUpdate (idPred toId) (creditRow quantity)
      (sqlUpdate (debitPred fromId quantity) (debitRow quantity) db).1).1 toId
      = some (t + quantity) := by
    rw [getStock, getProduct_sqlUpdate (idPred toId) (creditRow quantity)
        (fun p => rfl) _ toId, hdb1T]
    simp only [Option.map_some', hcT]
    simp [creditRow, hstockT]
  exact ⟨rfl, rfl, hfinS, hfinT, by ring⟩

/-- C1 witness: the spec scenario, stocks 10 and 5, `transfer(1, 2, 10)`
ends with stocks 0 and 15 and a success outcome. -/
theorem transfer_success_postcondition_witness :
    (transfer scenarioDb 1 2 10).1 = .success ∧
    TransferOutcome.statusCode (transfer scenarioDb 1 2 10).1 = 200 ∧
    getStock (transfer scenarioDb 1 2 10).2 1 = some (10 - 10) ∧
    getStock (transfer scenarioDb 1 2 10).2 2 = some (5 + 10) ∧
    (10 : Int) - 10 + (5 + 10) = 10 + 5 :=
  transfer_success_postcondition scenarioDb 1 2 10 10 5 (by decide) (by decide)
    (by decide) (by decide)

/-- C2: when the source product holds less stock than the requested
quantity (or does not exist at all), the transaction rolls back leaving
every row unchanged and reports the 400 insufficient-stock fault. -/
theorem transfer_insufficient_rollback (db : List Product) (fromId toId : Nat)
    (quantity : Int) (hwf : WellFormed db)
    (hlow : ∀ s, getStock db fromId = some s → s < quantity) :
    transfer db fromId toId quantity = (.insufficientStock, db) ∧
    TransferOutcome.statusCode .insufficientStock = 400 := by
  refine ⟨?_, rfl⟩
  apply transfer_eq_insufficient
  apply filter_length_zero
  intro p hp hpred
  simp only [debitPred, Bool.and_eq_true, beq_iff_eq, decide_eq_true_eq] at hpred
  obtain ⟨hpid, hqle⟩ := hpred
  cases hfind : getProduct db fromId with
  | none =>
    simp only [getProduct, List.find?_eq_none] at hfind
    exact hfind p hp (by simp [hpid])
  | some p0 =>
    have hmem0 := List.mem_of_find?_eq_some hfind
    have hpid0 : p0.product_id = fromId := by simpa using List.find?_some hfind
    have hpp : p = p0 :=
      List.inj_on_of_nodup_map hwf hp hmem0 (by rw [hpid, hpid0])
    have hlt := hlow p0.stock_quantity (by simp [getStock, hfind])
    rw [hpp] at hqle
    omega

/-- C2 witness: with stocks 0 and 15, `transfer(1, 2, 1)` is rolled back
with the insufficient-stock fault and both rows keep their stock. -/
theorem transfer_insufficient_rollback_witness :
    transfer drainedDb 1 2 1 = (.insufficientStock, drainedDb) ∧
    TransferOutcome.statusCode .insufficientStock = 400 :=
  transfer_insufficient_rollback drainedDb 1 2 1 (by decide)
    (fun s hs => by
      have h : (0 : Int) = s :=
        Option.some.inj ((rfl : getStock drainedDb 1 = some 0).symm.trans hs)
      omega)

/-- C3: when the destination id matches no row but the source debit
succeeds, the transaction rolls back — the source keeps its stock — and
the reported 400 fault is the destination-not-found one, distinct from
the insufficient-stock fault. -/
theorem transfer_destMissing_rollback (db : List Product) (fromId toId : Nat)
    (quantity s : Int) (hs : getStock db fromId = some s) (hq : quantity ≤ s)
    (ht : getStock db toId = none) :
    transfer db fromId toId quantity = (.destNotFound, db) ∧
    getStock (transfer db fromId toId quantity).2 fromId = some s ∧
    TransferOutcome.destNotFound ≠ TransferOutcome.insufficientStock ∧
    TransferOutcome.statusCode .destNotFound = 400 := by
  have h1 := debit_filter_ne_zero db fromId quantity s hs hq
  have htnone : getProduct db toId = none := by
    rw [getStock, Option.map_eq_none'] at ht
    exact ht
  have hnodst : ∀ a ∈ db, ¬ (idPred toId a = true) := by
    simp only [getProduct, List.find?_eq_none] at htnone
    intro a ha hid
    exact htnone a ha (by simpa [idPred] using hid)
  have h2 : (((sqlUpdate (debitPred fromId quantity) (debitRow quantity) db).1).filter
      (idPred toId)).length = 0 := by
    apply filter_length_zero
    intro a ha
    rw [sqlUpdate_fst] at ha
    obtain ⟨x, hx, rfl⟩ := List.mem_map.mp ha
    have hxid : (if debitPred fromId quantity x = true then debitRow quantity x
        else x).product_id = x.product_id := by
      by_cases hdx : debitPred fromId quantity x = true <;> simp [hdx, debitRow]
    intro hid
    apply hnodst x hx
    simpa [idPred, hxid] using hid
  have heq := transfer_eq_destNotFound db fromId toId quantity h1 h2
  rw [heq]
  exact ⟨rfl, hs, by decide, rfl⟩

/-- C3 witness: `transfer(1, 999, 1)` against the one-product table rolls
back with the destination-not-found fault and stock 10 is kept. -/
theorem transfer_destMissing_rollback_witness :
    transfer soloDb 1 999 1 = (.destNotFound, soloDb) ∧
    getStock (transfer soloDb 1 999 1).2 1 = some 10 ∧
    TransferOutcome.destNotFound ≠ TransferOutcome.insufficientStock ∧
    TransferOutcome.statusCode .destNotFound = 400 :=
  transfer_destMissing_rollback soloDb 1 999 1 10 (by decide) (by decide) (by decide)

/-- C5: a self-transfer with sufficient stock is not rejected: the debit
and credit hit the same row inside the one transaction, the outcome is
success and the table is unchanged. -/
theorem transfer_selfTransfer_noop (db : List Product) (i : Nat) (quantity s : Int)
    (hwf : WellFormed db) (hs : getStock db i = some s) (hq : quantity ≤ s) :
    transfer db i i quantity = (.success, db) := by
  obtain ⟨ps, hfind, hmem, hpid, hstock⟩ := getStock_some_elim db i s hs
  have h1 := debit_filter_ne_zero db i quantity s hs hq
  have hdb1 : getProduct (sqlUpdate (debitPred i quantity) (debitRow quantity) db).1 i
      = some (debitRow quantity ps) := by
    rw [getProduct_sqlUpdate (debitPred i quantity) (debitRow quantity)
        (fun p => rfl) db i, hfind]
    simp [debitPred, hpid, hstock, hq]
  have h2 : (((sqlUpdate (debitPred i quantity) (debitRow quantity) db).1).filter
      (idPred i)).length ≠ 0 :=
    filter_length_ne_zero _ _ _ (List.mem_of_find?_eq_some hdb1)
      (by simp [idPred, debitRow, hpid])
  rw [transfer_eq_success db i i quantity h1 h2]
  simp only [Prod.mk.injEq, true_and]
  rw [sqlUpdate_fst, sqlUpdate_fst, List.map_map]
  have hrow : ∀ p ∈ db, ((fun p : Product => if idPred i p = true then creditRow quantity p
      else p) ∘ fun p : Product => if debitPred i quantity p = true then debitRow quantity p
      else p) p = p := by
    intro p hp
    by_cases hpi : p.product_id = i
    · have hpps : p = ps := List.inj_on_of_nodup_map hwf hp hmem (hpi.trans hpid.symm)
      subst hpps
      have hd : debitPred i quantity p = true := by simp [debitPred, hpi, hstock, hq]
      have hc : idPred i (debitRow quantity p) = true := by simp [idPred, debitRow, hpi]
      simp [Function.comp, hd, hc, creditRow_debitRow]
    · have hd : debitPred i quantity p = false := by
        simp [debitPred, beq_eq_false_iff_ne, hpi]
      have hc : idPred i p = false := by
        simp [idPred, beq_eq_false_iff_ne, hpi]
      simp [Function.comp, hd, hc]
  rw [List.map_congr_left hrow]
  simp

/-- C5 witness: a self-transfer of 4 on the one-product table with stock
10 succeeds and leaves the table as it was. -/
theorem transfer_selfTransfer_noop_witness :
    transfer soloDb 1 1 4 = (.success, soloDb) :=
  transfer_selfTransfer_noop soloDb 1 4 10 (by decide) (by decide) (by decide)

/-- A transfer of a nonnegative quantity keeps every stock quantity
nonnegative: the debit is guarded by its WHERE clause and the credit
only adds. -/
theorem transfer_preserves_nonneg (db : List Product) (fromId toId : Nat)
    (quantity : Int) (hnn : ∀ p ∈ db, 0 ≤ p.stock_quantity) (hq : 0 ≤ quantity) :
    ∀ p ∈ (transfer db fromId toId quantity).2, 0 ≤ p.stock_quantity := by
  rw [transfer]
  split
  · simpa using hnn
  · split
    · simpa using hnn
    · intro p hp
      rw [sqlUpdate_fst, sqlUpdate_fst, List.map_map] at hp
      obtain ⟨x, hx, rfl⟩ := List.mem_map.mp hp
      have hx0 := hnn x hx
      simp only [Function.comp]
      by_cases hd : debitPred fromId quantity x = true
      · have hqle : quantity ≤ x.stock_quantity := by
          simp only [debitPred, Bool.and_eq_true, decide_eq_true_eq] at hd
          exact hd.2
        rw [if_pos hd]
        by_cases hc : idPred toId (debitRow quantity x) = true
        · rw [if_pos hc]
          simp only [creditRow, debitRow]
          omega
        · rw [if_neg hc]
          simp only [debitRow]
          omega
      · rw [if_neg hd]
        by_cases hc : idPred toId x = true
        · rw [if_pos hc]
          simp only [creditRow]
          omega
        · rw [if_neg hc]
          exact hx0

/-- C4 amended: the nonnegative-stock invariant is preserved by a
transfer of nonnegative quantity, by an update or create supplying a
nonnegative stock value, and by a delete; a transfer of negative
quantity (or an update/create passing a negative value) can break it,
as the schema has no CHECK constraint. -/
theorem operations_preserve_nonneg (db : List Product) (fromId toId freshId : Nat)
    (quantity newQty : Int) (name : String) (price : Rat) (cat : Option Nat)
    (hnn : ∀ p ∈ db, 0 ≤ p.stock_quantity) (hq : 0 ≤ quantity) (hnew : 0 ≤ newQty) :
    (∀ p ∈ (transfer db fromId toId quantity).2, 0 ≤ p.stock_quantity) ∧
    (∀ p ∈ (updateProduct db fromId name price newQty cat).2, 0 ≤ p.stock_quantity) ∧
    (∀ p ∈ createProduct db freshId name price newQty cat, 0 ≤ p.stock_quantity) ∧
    (∀ p ∈ (deleteProduct db fromId).2, 0 ≤ p.stock_quantity) := by
  refine ⟨transfer_preserves_nonneg db fromId toId quantity hnn hq, ?_, ?_, ?_⟩
  · rw [updateProduct]
    split
    · simpa using hnn
    · intro p hp
      rw [sqlUpdate_fst] at hp
      obtain ⟨x, hx, rfl⟩ := List.mem_map.mp hp
      by_cases hc : idPred fromId x = true
      · simp only [hc, if_true, updateRow]
        exact hnew
      · simp only [hc, if_false]
        exact hnn x hx
  · intro p hp
    rw [createProduct] at hp
    rcases List.mem_append.mp hp with h | h
    · exact hnn p h
    · rw [List.mem_singleton] at h
      subst h
      exact hnew
  · rw [deleteProduct]
    split
    · simpa using hnn
    · intro p hp
      exact hnn p (List.mem_of_mem_filter hp)

/-- C4 witness: on the scenario table the transfer of 10, an update to
stock 7 and a create with stock 7 all keep stocks nonnegative; in
particular the destination row ends at stock 15 which is nonnegative. -/
theorem operations_preserve_nonneg_witness :
    (0 : Int) ≤ (Product.mk 2 "Gadget" 1 15 none).stock_quantity :=
  (operations_preserve_nonneg scenarioDb 1 2 3 10 7 "Widget" 1 none (by decide)
    (by decide) (by decide)).1 ⟨2, "Gadget", 1, 15, none⟩ (by decide)

/-- C4 counterexample: from the all-nonnegative scenario table, the
unguarded credit of `transfer(1, 2, -6)` succeeds and leaves product 2
with stock -1, so the claimed always-nonnegative invariant fails on the
code for negative quantities. -/
theorem negative_transfer_breaks_nonneg :
    getStock scenarioDb 1 = some 10 ∧ getStock scenarioDb 2 = some 5 ∧
    (transfer scenarioDb 1 2 (-6)).1 = TransferOutcome.success ∧
    getStock (transfer scenarioDb 1 2 (-6)).2 2 = some (-1) ∧ (-1 : Int) < 0 := by
  refine ⟨rfl, rfl, rfl, rfl, by decide⟩

theorem mem_ite_nil {α : Type} (c : Prop) [Decidable c] (l : List α) (a : α) :
    (a ∈ if c then l else []) ↔ c ∧ a ∈ l := by
  split <;> simp [*]

theorem jsTruthy_some_iff (s : String) : jsTruthy (some s) = true ↔ s ≠ "" := by
  rw [jsTruthy, Bool.not_eq_true']
  rw [← Bool.not_eq_true (String.isEmpty s)]
  rw [String.isEmpty_iff]

theorem jsTruthy_some_false (s : String) (h : s = "") : jsTruthy (some s) = false := by
  subst h
  rfl

/-- C6 amended: a bound that is missing or supplied as the empty string
contributes no clause; every other supplied bound contributes exactly
its clause, parameterized by the `parseFloat`/`parseInt` of the raw
value — NaN included when it is unparseable — and no parse error is
surfaced in either case. -/
theorem filterBounds_leniency (q : ProductQuery) :
    ((q.minPrice = none ∨ q.minPrice = some "") →
      ∀ x, BoundClause.priceGe x ∉ buildClauses q) ∧
    (∀ s, q.minPrice = some s → s ≠ "" →
      BoundClause.priceGe (parseFloatJs s) ∈ buildClauses q) ∧
    ((q.maxPrice = none ∨ q.maxPrice = some "") →
      ∀ x, BoundClause.priceLe x ∉ buildClauses q) ∧
    (∀ s, q.maxPrice = some s → s ≠ "" →
      BoundClause.priceLe (parseFloatJs s) ∈ buildClauses q) ∧
    ((q.minQty = none ∨ q.minQty = some "") →
      ∀ x, BoundClause.qtyGe x ∉ buildClauses q) ∧
    (∀ s, q.minQty = some s → s ≠ "" →
      BoundClause.qtyGe (parseIntJs s) ∈ buildClauses q) ∧
    ((q.maxQty = none ∨ q.maxQty = some "") →
      ∀ x, BoundClause.qtyLe x ∉ buildClauses q) ∧
    (∀ s, q.maxQty = some s → s ≠ "" →
      BoundClause.qtyLe (parseIntJs s) ∈ buildClauses q) := by
  refine ⟨?_, ?_, ?_, ?_, ?_, ?_, ?_, ?_⟩
  · intro h x hmem
    have hfalse : jsTruthy q.minPrice = false := by
      rcases h with h | h <;> rw [h]
      · rfl
      · rfl
    simp [buildClauses, List.mem_append, mem_ite_nil, hfalse] at hmem
  · intro s hsome hne
    have htrue : jsTruthy (some s) = true := (jsTruthy_some_iff s).mpr hne
    simp [buildClauses, List.mem_append, mem_ite_nil, hsome, htrue]
  · intro h x hmem
    have hfalse : jsTruthy q.maxPrice = false := by
      rcases h with h | h <;> rw [h]
      · rfl
      · rfl
    simp [buildClauses, List.mem_append, mem_ite_nil, hfalse] at hmem
  · intro s hsome hne
    have htrue : jsTruthy (some s) = true := (jsTruthy_some_iff s).mpr hne
    simp [buildClauses, List.mem_append, mem_ite_nil, hsome, htrue]
  · intro h x hmem
    have hfalse : jsTruthy q.minQty = false := by
      rcases h with h | h <;> rw [h]
      · rfl
      · rfl
    simp [buildClauses, List.mem_append, mem_ite_nil, hfalse] at hmem
  · intro s hsome hne
    have htrue : jsTruthy (some s) = true := (jsTruthy_some_iff s).mpr hne
    simp [buildClauses, List.mem_append, mem_ite_nil, hsome, htrue]
  · intro h x hmem
    have hfalse : jsTruthy q.maxQty = false := by
      rcases h with h | h <;> rw [h]
      · rfl
      · rfl
    simp [buildClauses, List.mem_append, mem_ite_nil, hfalse] at hmem
  · intro s hsome hne
    have htrue : jsTruthy (some s) = true := (jsTruthy_some_iff s).mpr hne
    simp [buildClauses, List.mem_append, mem_ite_nil, hsome, htrue]

/-- C6 witness: a minimum price supplied as "5" contributes its clause. -/
theorem filterBounds_leniency_witness :
    BoundClause.priceGe (parseFloatJs "5") ∈
      buildClauses ⟨some "5", none, none, none⟩ :=
  (filterBounds_leniency ⟨some "5", none, none, none⟩).2.1 "5" rfl (by decide)

/-- C6 counterexample: the supplied value "abc" parses to NaN — it is
invalid — yet the handler still pushes a price clause for it, so an
invalid bound is not treated as absent. -/
theorem invalid_bound_still_pushes_clause :
    parseFloatJs "abc" = none ∧
    buildClauses ⟨some "abc", none, none, none⟩ = [BoundClause.priceGe none] := by
  exact ⟨by decide, by decide⟩

/-- C7: creating a category under a fresh non-empty name succeeds, and
creating it again under the same name answers the conflict fault (409,
mapped from the UNIQUE-constraint violation), stores nothing further,
and exactly one row with that name is stored. -/
theorem createCategory_duplicate_conflict (rows : List Category)
    (nextId nextId2 : Nat) (n : String) (hne : n ≠ "")
    (hfresh : ∀ c ∈ rows, c.category_name ≠ n) :
    createCategory rows nextId (some n) =
      (.created nextId, rows ++ [Category.mk nextId n]) ∧
    createCategory (rows ++ [Category.mk nextId n]) nextId2 (some n) =
      (.conflict, rows ++ [Category.mk nextId n]) ∧
    CreateCategoryResult.statusCode .conflict = 409 ∧
    ((rows ++ [Category.mk nextId n]).filter
      fun c => c.category_name == n).length = 1 := by
  have hempty : n.isEmpty = false := by
    rw [← Bool.not_eq_true (String.isEmpty n), String.isEmpty_iff]
    exact hne
  have hany : (rows.any fun c => c.category_name == n) = false := by
    rw [List.any_eq_false]
    intro c hc
    simpa using hfresh c hc
  have hfilter : rows.filter (fun c => c.category_name == n) = [] := by
    rw [List.filter_eq_nil_iff]
    intro c hc
    simpa using hfresh c hc
  refine ⟨?_, ?_, rfl, ?_⟩
  · simp [createCategory, hempty, hany]
  · have hany2 : ((rows ++ [Category.mk nextId n]).any
        fun c => c.category_name == n) = true := by
      simp [List.any_append]
    simp [createCategory, hempty, hany2]
  · rw [List.filter_append, hfilter]
    simp

/-- C7 witness: creating "Books" twice from the empty table: first 201,
then 409, and one stored row named "Books". -/
theorem createCategory_duplicate_conflict_witness :
    createCategory [] 1 (some "Books") =
      (.created 1, [] ++ [Category.mk 1 "Books"]) ∧
    createCategory ([] ++ [Category.mk 1 "Books"]) 2 (some "Books") =
      (.conflict, [] ++ [Category.mk 1 "Books"]) ∧
    CreateCategoryResult.statusCode .conflict = 409 ∧
    ((([] : List Category) ++ [Category.mk 1 "Books"]).filter
      fun c => c.category_name == "Books").length = 1 :=
  createCategory_duplicate_conflict [] 1 2 "Books" (by decide) (by decide)

/-- C8: for product update and delete the outcome is decided by the
rows-affected count: the count is zero exactly when no row has the id,
the 404 not-found outcome holds exactly when the count is zero, and a
nonzero count yields the 200 outcome carrying that count. -/
theorem updateDelete_rowsAffected (db : List Product) (id : Nat) (name : String)
    (price : Rat) (quantity : Int) (cat : Option Nat) :
    ((db.filter (idPred id)).length = 0 ↔ ∀ p ∈ db, p.product_id ≠ id) ∧
    ((updateProduct db id name price quantity cat).1 = .notFound ↔
      (db.filter (idPred id)).length = 0) ∧
    ((deleteProduct db id).1 = .notFound ↔ (db.filter (idPred id)).length = 0) ∧
    RepoResult.statusCode .notFound = 404 ∧
    ((db.filter (idPred id)).length ≠ 0 →
      (updateProduct db id name price quantity cat).1 =
        .ok (db.filter (idPred id)).length ∧
      (deleteProduct db id).1 = .ok (db.filter (idPred id)).length) := by
  refine ⟨?_, ?_, ?_, rfl, ?_⟩
  · rw [List.length_eq_zero, List.filter_eq_nil_iff]
    constructor
    · intro h p hp
      simpa [idPred] using h p hp
    · intro h p hp
      simp [idPred, h p hp]
  · rw [updateProduct]
    split
    · rename_i h
      rw [sqlUpdate_snd] at h
      simp [h]
    · rename_i h
      rw [sqlUpdate_snd] at h
      simp [h]
  · rw [deleteProduct]
    split
    · rename_i h
      simp [h]
    · rename_i h
      simp [h]
  · intro h
    rw [updateProduct, deleteProduct]
    simp only [sqlUpdate_snd, sqlUpdate_fst]
    rw [if_neg h, if_neg h]
    exact ⟨rfl, rfl⟩

/-- C8 witness: updating and deleting product 1 of the scenario table
both affect one row and answer the 200 outcome with count 1. -/
theorem updateDelete_rowsAffected_witness :
    (updateProduct scenarioDb 1 "Widget" 1 7 none).1 =
      .ok (scenarioDb.filter (idPred 1)).length ∧
    (deleteProduct scenarioDb 1).1 = .ok (scenarioDb.filter (idPred 1)).length :=
  (updateDelete_rowsAffected scenarioDb 1 "Widget" 1 7 none).2.2.2.2 (by decide)

/-- C9: with no intervening writes both listings are deterministic —
the same pure query on the same table state gives the same rows — the
category listing is a permutation of the Categories table sorted
ascending by category name, and the unfiltered product listing is a
permutation of the joined rows sorted ascending by product name. -/
theorem listings_idempotent_sorted (cs : List Category) (ps : List Product) :
    listCategories cs = listCategories cs ∧
    (listCategories cs).Perm cs ∧
    List.Sorted (fun a b : Category => a.category_name ≤ b.category_name)
      (listCategories cs) ∧
    listProducts ps cs noFilter = listProducts ps cs noFilter ∧
    (listProducts ps cs noFilter).Perm (joinRows ps cs) ∧
    List.Sorted (fun a b : ProductRow => a.product_name ≤ b.product_name)
      (listProducts ps cs noFilter) := by
  have hfilt : ((joinRows ps cs).filter
      fun r => (buildClauses noFilter).all fun c => clauseHolds c r) = joinRows ps cs := by
    have hnil : buildClauses noFilter = [] := rfl
    simp [hnil]
  have htrC : ∀ a b c : Category, decide (a.category_name ≤ b.category_name) = true →
      decide (b.category_name ≤ c.category_name) = true →
      decide (a.category_name ≤ c.category_name) = true := by
    intro a b c hab hbc
    rw [decide_eq_true_eq] at *
    exact le_trans hab hbc
  have htoC : ∀ a b : Category, (decide (a.category_name ≤ b.category_name) ||
      decide (b.category_name ≤ a.category_name)) = true := by
    intro a b
    rcases le_total a.category_name b.category_name with h | h <;> simp [h]
  have htrP : ∀ a b c : ProductRow, decide (a.product_name ≤ b.product_name) = true →
      decide (b.product_name ≤ c.product_name) = true →
      decide (a.product_name ≤ c.product_name) = true := by
    intro a b c hab hbc
    rw [decide_eq_true_eq] at *
    exact le_trans hab hbc
  have htoP : ∀ a b : ProductRow, (decide (a.product_name ≤ b.product_name) ||
      decide (b.product_name ≤ a.product_name)) = true := by
    intro a b
    rcases le_total a.product_name b.product_name with h | h <;> simp [h]
  refine ⟨rfl, List.mergeSort_perm cs _, ?_, rfl, ?_, ?_⟩
  · exact (List.sorted_mergeSort htrC htoC cs).imp fun hab => of_decide_eq_true hab
  · rw [listProducts, hfilt]
    exact List.mergeSort_perm _ _
  · rw [listProducts]
    exact ((List.sorted_mergeSort htrP htoP _).imp fun hab => of_decide_eq_true hab)

/-- C10: a product whose `category_id` is NULL survives no inner join
with the Categories table, so no row of any products listing — filtered
or not — carries its id. -/
theorem uncategorized_product_never_listed (ps : List Product) (cs : List Category)
    (q : ProductQuery) (p : Product) (hwf : WellFormed ps) (hp : p ∈ ps)
    (hnone : p.category_id = none) :
    ∀ r ∈ listProducts ps cs q, r.product_id ≠ p.product_id := by
  intro r hr hre
  rw [listProducts, List.mem_mergeSort] at hr
  have hr2 : r ∈ joinRows ps cs := List.mem_of_mem_filter hr
  rw [joinRows, List.mem_flatMap] at hr2
  obtain ⟨p2, hp2, hr3⟩ := hr2
  obtain ⟨c, hc, rfl⟩ := List.mem_map.mp hr3
  have hpp : p2 = p := List.inj_on_of_nodup_map hwf hp2 hp (by simpa using hre)
  have hmatch := (List.mem_filter.mp hc).2
  rw [hpp, hnone] at hmatch
  simp at hmatch

/-- C10 witness: in the mixed table the uncategorized product 1 never
shows up — the listed row is product 2's. -/
theorem uncategorized_product_never_listed_witness :
    (ProductRow.mk 2 "Book" 1 5 "Tools").product_id ≠
      (Product.mk 1 "Axe" 1 5 none).product_id :=
  uncategorized_product_never_listed mixedPs oneCat noFilter ⟨1, "Axe", 1, 5, none⟩
    (by decide) (by decide) rfl ⟨2, "Book", 1, 5, "Tools"⟩
    (by rw [listProducts, List.mem_mergeSort]; decide)

end Inventory
